import Mathlib

/-!
# Student Database Management System — verification of the core operations

Shallow embedding of `src/main.py`: the validator (`validate_email`,
`validate_inputs`), the record store backed by the `students` table together
with the Streamlit branch logic that guards each write, the SQL `LIKE`-based
search, and the `train_and_predict` classification pipeline.

Modelling conventions:
* SQLite `REAL` (gpa) is modelled as `ℚ`, `INTEGER` as `ℤ`/`ℕ`.
* The database is a `DB`: the ordered list of rows of the `students` table
  plus the next `AUTOINCREMENT` id.
* Each public operation is the corresponding Streamlit branch (validation /
  existence check) composed with the SQL statement it issues; it returns the
  new database together with an optional error, the error case leaving the
  database exactly as it was (no SQL is executed on that path).
* Python's `re.match` of the anchored email pattern is embedded as an
  executable matcher over `List Char`, character class by character class,
  including the `$`-before-final-newline behaviour of Python's `$`.
* SQLite's `LIKE` (default `case_sensitive_like = OFF`, ASCII folding,
  `%`/`_` wildcards) is embedded as `likeMatch`.
-/

/-- A row of the `students` table (`CREATE TABLE students` in `src/main.py`). -/
structure Student where
  id : Nat
  name : String
  age : Int
  major : String
  gpa : Rat
  email : String
deriving DecidableEq, Repr

/-- `lo ≤ c ≤ hi` on code points: one range of a regex character class. -/
def charBetween (lo hi : Nat) (c : Char) : Bool :=
  decide (lo ≤ c.toNat) && decide (c.toNat ≤ hi)

/-- The local-part class `[a-zA-Z0-9._%+-]` of the email pattern. -/
def isLocalChar (c : Char) : Bool :=
  charBetween 97 122 c || charBetween 65 90 c || charBetween 48 57 c ||
    c == '.' || c == '_' || c == '%' || c == '+' || c == '-'

/-- The domain class `[a-zA-z)-9.-]` exactly as written in the source: the
range `A-z` (code points 65–122, so all letters plus `[ \ ] ^ _` and the
backquote) and the range `)-9` (code points 41–57, so `)*+,-./` plus the
digits), besides `a-z`, `.` and `-`. -/
def isDomainCharCode (c : Char) : Bool :=
  charBetween 97 122 c || charBetween 65 122 c || charBetween 41 57 c ||
    c == '.' || c == '-'

/-- The top-level-domain class `[a-zA-Z]`. -/
def isTldChar (c : Char) : Bool :=
  charBetween 97 122 c || charBetween 65 90 c

/-- `[a-zA-Z]{2,}$`: the whole rest of the string is 2 or more letters. -/
def tldOk (t : List Char) : Bool :=
  decide (2 ≤ t.length) && t.all isTldChar

/-- After at least one domain character: the rest of `dom`-class characters,
then the literal dot and the top-level domain. Both alternatives are tried,
as regex backtracking would. -/
def domTail (dom : Char → Bool) : List Char → Bool
  | [] => false
  | c :: rest => (c == '.' && tldOk rest) || (dom c && domTail dom rest)

/-- One or more `dom`-class characters, then `\.` and the TLD. -/
def domPart (dom : Char → Bool) : List Char → Bool
  | [] => false
  | c :: rest => dom c && domTail dom rest

/-- After at least one local-part character: more of them, then `@` and the
domain. -/
def localTail (dom : Char → Bool) : List Char → Bool
  | [] => false
  | c :: rest => (c == '@' && domPart dom rest) || (isLocalChar c && localTail dom rest)

/-- The anchored pattern `^[a-zA-Z0-9._%+-]+@<dom>+\.[a-zA-Z]{2,}$` on a
character list, parameterised by the domain character class. -/
def coreEmailMatch (dom : Char → Bool) : List Char → Bool
  | [] => false
  | c :: rest => isLocalChar c && localTail dom rest

/-- `validate_email` of `src/main.py`: Python's `re.match` of the pattern
`r'^[a-zA-Z0-9._%+-]+@[a-zA-z)-9.-]+\.[a-zA-Z]{2,}$'`.  Python's `$` also
matches just before a newline that ends the string. -/
def validate_email (email : String) : Bool :=
  coreEmailMatch isDomainCharCode email.data ||
    (match email.data.getLast? with
     | some c => c == '\n' && coreEmailMatch isDomainCharCode email.data.dropLast
     | none => false)

/-- Following the spec's words only (for comparison with `validate_email`):
`local@domain.tld` where the domain part is one or more of letters, digits,
`.`, `-` — the pattern the spec says the source's class is a typo for. -/
def isDomainCharSpec (c : Char) : Bool :=
  charBetween 97 122 c || charBetween 65 90 c || charBetween 48 57 c ||
    c == '.' || c == '-'

/-- Following the spec's words only: acceptance by the straightforward
`local@domain.tld` pattern (letters/digits/`.`/`_`/`%`/`+`/`-` local part,
letters/digits/`.`/`-` domain, 2+ letter TLD). -/
def specEmailAccepts (email : String) : Bool :=
  coreEmailMatch isDomainCharSpec email.data

/-- The whitespace characters Python's `str.strip()` removes (the ASCII
ones; the records here are ASCII). -/
def isPySpace (c : Char) : Bool :=
  c == ' ' || c == '\t' || c == '\n' || c == '\r' || c == '\x0b' || c == '\x0c'

/-- Python's `name.strip()`: leading and trailing whitespace removed. -/
def pyStrip (s : List Char) : List Char :=
  (((s.dropWhile isPySpace).reverse).dropWhile isPySpace).reverse

/-- `validate_inputs` of `src/main.py`: the list of violation messages, every
rule evaluated, in source order (`not name` is Python truthiness: the empty
string). -/
def validate_inputs (name : String) (age : Int) (gpa : Rat) (email : String) :
    List String :=
  (if name = "" ∨ (pyStrip name.data).length < 2 then ["Name must be at least 2 characters."] else []) ++
  (if ¬ (18 ≤ age ∧ age ≤ 100) then ["Age must be between 18 and 100."] else []) ++
  (if ¬ ((0 : Rat) ≤ gpa ∧ gpa ≤ 4) then ["GPA must be between 0.0 and 4.0."] else []) ++
  (if validate_email email = false then ["Invalid email format."] else [])

/-- The errors the presentation layer can surface: `st.error('Student ID not
found.')` and the list shown by the validation loop. -/
inductive AppError where
  | notFound
  | validation (errors : List String)
deriving DecidableEq, Repr

/-- The state of `students.db`: the rows of the `students` table in rowid
order, and the next `AUTOINCREMENT` value. -/
structure DB where
  rows : List Student
  nextId : Nat
deriving DecidableEq, Repr

/-- The freshly created database: empty table, ids starting at 1. -/
def initDB : DB := { rows := [], nextId := 1 }

/-- `SELECT * FROM students` (`view_students`): all rows in rowid order. -/
def viewStudents (db : DB) : List Student := db.rows

/-- `student_id in df['id'].values`: some row has this id. -/
def hasId (db : DB) (sid : Nat) : Bool :=
  db.rows.any (fun r => r.id == sid)

/-- `add_student`: the bare `INSERT` statement. -/
def add_student (db : DB) (name : String) (age : Int) (major : String)
    (gpa : Rat) (email : String) : DB :=
  { rows := db.rows ++
      [{ id := db.nextId, name := name, age := age, major := major,
         gpa := gpa, email := email }],
    nextId := db.nextId + 1 }

/-- `update_student`: the bare `UPDATE ... WHERE id=?` statement. -/
def update_student (db : DB) (sid : Nat) (name : String) (age : Int)
    (major : String) (gpa : Rat) (email : String) : DB :=
  { rows := db.rows.map (fun r =>
      if r.id = sid then
        { id := r.id, name := name, age := age, major := major,
          gpa := gpa, email := email }
      else r),
    nextId := db.nextId }

/-- `delete_student`: the bare `DELETE FROM students WHERE id=?` statement. -/
def delete_student (db : DB) (sid : Nat) : DB :=
  { rows := db.rows.filter (fun r => !(r.id == sid)), nextId := db.nextId }

/-- The `Add Student` branch: validate first; only an empty error list lets
the `INSERT` run. -/
def addStudent (db : DB) (name : String) (age : Int) (major : String)
    (gpa : Rat) (email : String) : DB × Option AppError :=
  let errors := validate_inputs name age gpa email
  if errors = [] then (add_student db name age major gpa email, none)
  else (db, some (.validation errors))

/-- The `Update Student` branch: the id is looked up first, then the form is
validated; only then does the `UPDATE` run. -/
def updateStudent (db : DB) (sid : Nat) (name : String) (age : Int)
    (major : String) (gpa : Rat) (email : String) : DB × Option AppError :=
  if hasId db sid then
    let errors := validate_inputs name age gpa email
    if errors = [] then (update_student db sid name age major gpa email, none)
    else (db, some (.validation errors))
  else (db, some .notFound)

/-- The `Delete Student` branch: the id is looked up first; only then does
the `DELETE` run. -/
def deleteStudent (db : DB) (sid : Nat) : DB × Option AppError :=
  if hasId db sid then (delete_student db sid, none)
  else (db, some .notFound)

/-- SQLite `LIKE` with its default settings: `%` matches any sequence, `_`
matches exactly one character, anything else matches up to ASCII case. -/
def likeMatch : List Char → List Char → Bool
  | [], s => s.isEmpty
  | c :: p, s =>
    if c = '%' then s.tails.any (fun t => likeMatch p t)
    else if c = '_' then
      match s with
      | [] => false
      | _ :: t => likeMatch p t
    else
      match s with
      | [] => false
      | d :: t => (c.toLower == d.toLower) && likeMatch p t

/-- `search_students`: `SELECT * FROM students WHERE name LIKE ? OR major
LIKE ?` with the parameter `'%' + query + '%'`. -/
def searchStudents (db : DB) (q : String) : List Student :=
  db.rows.filter (fun r =>
    likeMatch ('%' :: (q.data ++ ['%'])) r.name.data ||
    likeMatch ('%' :: (q.data ++ ['%'])) r.major.data)

/-- Every database state the presentation layer can reach through the public
operations, starting from the freshly created file. Failed operations keep
the state (no SQL runs on their path), so they are covered by the same
constructors. -/
inductive Reachable : DB → Prop where
  | init : Reachable initDB
  | add {db : DB} {name major email : String} {age : Int} {gpa : Rat} :
      Reachable db → Reachable (addStudent db name age major gpa email).1
  | update {db : DB} {sid : Nat} {name major email : String} {age : Int} {gpa : Rat} :
      Reachable db → Reachable (updateStudent db sid name age major gpa email).1
  | delete {db : DB} {sid : Nat} :
      Reachable db → Reachable (deleteStudent db sid).1

/-- The derived performance label: `np.where(df['gpa'] >= 3.0, 'High
Performer', 'Needs Improvement')`.  Never a column of the `students` table —
it is recomputed inside `train_and_predict` from the gpa at hand. -/
inductive Performance where
  | highPerformer
  | needsImprovement
deriving DecidableEq, Repr

/-- `derivePerformance g` is the label the pipeline writes into the
`performance` column for a row with gpa `g`. -/
def derivePerformance (gpa : Rat) : Performance :=
  if 3 ≤ gpa then .highPerformer else .needsImprovement

/-- What `DecisionTreeClassifier(max_depth=3).fit` hands back: a predictor
on the two features `(age, gpa)` and the two `feature_importances_` entries,
zipped with `['Age', 'GPA']`. -/
structure FittedModel where
  predictFn : Int → Rat → Performance
  importanceAge : Rat
  importanceGpa : Rat

/-- The type of the training step: feature rows `(age, gpa)` with their
labels in, a fitted model out. -/
def Fit : Type := List ((Int × Rat) × Performance) → FittedModel

/-- The type of `train_test_split` on the labelled rows: one list in, the
`(train, test)` pair out. -/
def Split : Type := List (Student × Performance) →
  List (Student × Performance) × List (Student × Performance)

/-- Modelled from the spec: `sklearn.tree.DecisionTreeClassifier` is external
library code not in the repository, so the fitted model is a parameter; the
spec describes its `featureImportance` as "a non-negative weight summing to
1.0 across the two features". -/
def FitSpec (fit : Fit) : Prop :=
  ∀ train, 0 ≤ (fit train).importanceAge ∧ 0 ≤ (fit train).importanceGpa ∧
    (fit train).importanceAge + (fit train).importanceGpa = 1

/-- Modelled from the spec: `sklearn.model_selection.train_test_split` is
external library code not in the repository, so the split is a parameter; the
spec describes it as a pseudo-random partition into 80% training and 20%
evaluation rows (`test_size=0.2`, the test share rounded up). -/
def SplitSpec (split : Split) : Prop :=
  ∀ l, ((split l).1 ++ (split l).2).Perm l ∧
    ((split l).2).length = (l.length + 4) / 5

/-- `sklearn.metrics.accuracy_score`: the fraction of positions where the
true and predicted labels agree, over the length of the true-label list,
as the exact ratio. -/
def accuracy_score (yTrue yPred : List Performance) : Rat :=
  mkRat ((yTrue.zip yPred).countP (fun p => p.1 == p.2) : Int) yTrue.length

/-- `train_and_predict` of `src/main.py`, its two sklearn calls passed in as
parameters.  Result: the input rows, then (each `none` below 10 rows) the
rows with their derived and predicted labels, the held-out accuracy, and the
`(Age, GPA)` feature importances. -/
def train_and_predict (split : Split) (fit : Fit) (df : List Student) :
    List Student × Option (List (Student × Performance × Performance)) ×
      Option Rat × Option (Rat × Rat) :=
  if df.length < 10 then (df, none, none, none)
  else
    let labeled := df.map (fun s => (s, derivePerformance s.gpa))
    let tt := split labeled
    let model := fit (tt.1.map (fun p => ((p.1.age, p.1.gpa), p.2)))
    let table := labeled.map (fun p => (p.1, p.2, model.predictFn p.1.age p.1.gpa))
    let acc := accuracy_score (tt.2.map (fun p => p.2))
      (tt.2.map (fun p => model.predictFn p.1.age p.1.gpa))
    (df, some table, some acc, some (model.importanceAge, model.importanceGpa))

/-- What the `ML Recommendations` page renders. -/
inductive MLView where
  | noStudents
  | insufficientData
  | results (accuracy : Rat) (featureImportance : Rat × Rat)
      (table : List (Student × Performance × Performance))
      (atRisk : List (Student × Performance × Performance))
deriving DecidableEq, Repr

/-- The `ML Recommendations` branch of `src/main.py`: empty table → "Add
students to enable ML."; otherwise `train_and_predict` runs and Python's
`if accuracy:` decides — `None` and `0.0` are both falsy, so both paths show
"Not enough data for ML predictions (need at least 10 students)." -/
def mlRecommendations (split : Split) (fit : Fit) (db : DB) : MLView :=
  let df := viewStudents db
  if df.isEmpty then .noStudents
  else
    match train_and_predict split fit df with
    | (_, some table, some a, some fi) =>
        if a = 0 then .insufficientData
        else .results a fi table
          (table.filter (fun r => r.2.2 == Performance.needsImprovement))
    | _ => .insufficientData

/-- A concrete deterministic 80/20 partition: the last fifth (rounded up) of
the rows is the evaluation subset. -/
def split0 : Split := fun l =>
  (l.take (l.length - (l.length + 4) / 5), l.drop (l.length - (l.length + 4) / 5))

/-- A concrete fitted-model producer: always predicts `highPerformer` and
reports equal feature importances. -/
def fit0 : Fit := fun _ =>
  { predictFn := fun _ _ => Performance.highPerformer,
    importanceAge := mkRat 1 2, importanceGpa := mkRat 1 2 }

/-- A concrete valid row for the fixtures below. -/
def stu (i : Nat) (g : Rat) : Student :=
  { id := i, name := "Stu Dent", age := 20, major := "CS", gpa := g, email := "s@uni.edu" }

/-- Nine rows: one short of the classification threshold. -/
def df9 : List Student :=
  [stu 1 3, stu 2 3, stu 3 3, stu 4 3, stu 5 3, stu 6 3, stu 7 3, stu 8 3, stu 9 3]

/-- Ten rows, all with gpa 3: the degenerate single-label population. -/
def dfDegenerate : List Student :=
  [stu 1 3, stu 2 3, stu 3 3, stu 4 3, stu 5 3, stu 6 3, stu 7 3, stu 8 3,
   stu 9 3, stu 10 3]

/-- Ten rows: eight high performers followed by two rows with gpa 2, so the
held-out fifth under `split0` carries only `needsImprovement` labels. -/
def dbZeroAcc : DB :=
  { rows := [stu 1 3, stu 2 3, stu 3 3, stu 4 3, stu 5 3, stu 6 3, stu 7 3,
             stu 8 3, stu 9 2, stu 10 2],
    nextId := 11 }

/-- A one-row database used by the concrete witnesses. -/
def dbBob : DB :=
  { rows := [{ id := 1, name := "Bob", age := 25, major := "CS", gpa := 3,
               email := "b@c.com" }],
    nextId := 2 }

/-- A one-row database whose name and major contain no `LIKE`
metacharacters. -/
def dbAbc : DB :=
  { rows := [{ id := 1, name := "abc", age := 20, major := "m", gpa := 3,
               email := "a@b.com" }],
    nextId := 2 }

/-- One valid row added to the fresh database. -/
def dbSeeded : DB := (addStudent initDB "Al B" 20 "CS" 3 "a@b.com").1

/-- Following the claim's words: `q` occurs in `s` as a substring up to
ASCII case — some suffix of `s` begins with `q` once both are lowercased. -/
def containsSubstrCI (q s : List Char) : Bool :=
  s.tails.any (fun t => (q.map Char.toLower).isPrefixOf (t.map Char.toLower))

/-- The query holds no `LIKE` metacharacter. -/
def noWildcard (q : String) : Bool :=
  q.data.all (fun c => !(c == '%' || c == '_'))


/-- Membership in one conditional violation entry. -/
lemma mem_ite_singleton {c : Prop} [Decidable c] {x m : String} :
    (x ∈ if c then [m] else []) ↔ (x = m ∧ c) := by
  split_ifs with h <;> simp [h]

/-- **C2.** The claim says `validate_email` accepts exactly the strings of
the clean `local@domain.tld` pattern whose domain part is letters, digits,
`.`, `-`.  The source's domain class `[a-zA-z)-9.-]` (the `A-z` and `)-9`
ranges — the spec itself flags the stray `)` as a likely typo) accepts more:
`a@a_a.com` passes the code's pattern (`_` lies in the range `A-z`) while
the claimed pattern rejects it. -/
theorem c2_email_validator_divergence :
    validate_email "a@a_a.com" = true ∧ specEmailAccepts "a@a_a.com" = false := by
  decide

/-- **C7.** The derived performance label is `highPerformer` exactly when
the gpa is at least 3 (the boundary gpa = 3 inclusive), and
`needsImprovement` exactly when it is below 3. -/
theorem c7_performance_label_threshold (g : Rat) :
    (derivePerformance g = Performance.highPerformer ↔ 3 ≤ g) ∧
    (derivePerformance g = Performance.needsImprovement ↔ g < 3) ∧
    derivePerformance 3 = Performance.highPerformer := by
  by_cases h : (3 : Rat) ≤ g
  · exact ⟨by simp [derivePerformance, h], by simp [derivePerformance, h, not_lt.mpr h],
      by simp [derivePerformance]⟩
  · exact ⟨by simp [derivePerformance, h], by simp [derivePerformance, h, not_le.mp h],
      by simp [derivePerformance]⟩

/-- **C8.** `validate_inputs` is a pure function that evaluates all four
rules and returns exactly the violated rules' messages: the age message is
present exactly for ages outside [18, 100], the gpa message exactly for gpa
outside [0, 4], the email message exactly for emails the code's pattern
rejects, the name message exactly for names under 2 characters after
stripping; the boundary inputs age 18, age 100, gpa 0, gpa 4 are valid, and
the spec's sample valid record (gpa 7/2 = 3.5) yields no violation. -/
theorem c8_validate_inputs_characterisation (n : String) (a : Int) (g : Rat) (e : String) :
    ("Name must be at least 2 characters." ∈ validate_inputs n a g e ↔
      (n = "" ∨ (pyStrip n.data).length < 2)) ∧
    ("Age must be between 18 and 100." ∈ validate_inputs n a g e ↔
      (a < 18 ∨ 100 < a)) ∧
    ("GPA must be between 0.0 and 4.0." ∈ validate_inputs n a g e ↔
      (g < 0 ∨ 4 < g)) ∧
    ("Invalid email format." ∈ validate_inputs n a g e ↔ validate_email e = false) ∧
    validate_inputs "Al B" 18 0 "a@b.com" = [] ∧
    validate_inputs "Al B" 100 4 "a@b.com" = [] ∧
    validate_inputs "Al B" 20 (mkRat 7 2) "a@b.com" = [] := by
  refine ⟨?_, ?_, ?_, ?_, by decide, by decide, by decide⟩
  all_goals
    unfold validate_inputs
    simp only [List.mem_append, mem_ite_singleton]
  · simp
  · simp
    omega
  · simp
    constructor
    · intro h
      rcases le_or_lt 0 g with h0 | h0
      · exact Or.inr (h h0)
      · exact Or.inl h0
    · rintro (h | h)
      · intro h0
        exact absurd h0 (not_le.mpr h)
      · intro h0
        exact h
  · simp

/-- **C1.** Every database state reachable through the public operations
(`addStudent`, `updateStudent`, `deleteStudent`) contains only rows that
pass validation: each branch runs `validate_inputs` strictly before its
`INSERT`/`UPDATE` and refuses the write otherwise, and `DELETE` adds
nothing. -/
theorem c1_store_validation_invariant (db : DB) (h : Reachable db) :
    ∀ r ∈ viewStudents db, validate_inputs r.name r.age r.gpa r.email = [] := by
  induction h with
  | init =>
    intro r hr
    simp [viewStudents, initDB] at hr
  | add hdb ih =>
    rename_i db name major email age gpa
    intro r hr
    by_cases hv : validate_inputs name age gpa email = []
    · simp only [viewStudents, addStudent, add_student, hv, if_pos] at hr
      rcases List.mem_append.mp hr with h1 | h1
      · exact ih r h1
      · simp only [List.mem_singleton] at h1
        subst h1
        simpa using hv
    · simp only [viewStudents, addStudent, hv, if_neg, if_false] at hr
      exact ih r hr
  | update hdb ih =>
    rename_i db sid name major email age gpa
    intro r hr
    by_cases hid : hasId db sid = true
    · by_cases hv : validate_inputs name age gpa email = []
      · simp only [viewStudents, updateStudent, update_student, hid, hv, if_pos,
          if_true] at hr
        rcases List.mem_map.mp hr with ⟨r0, hr0, heq⟩
        by_cases hrid : r0.id = sid
        · rw [if_pos hrid] at heq
          subst heq
          simpa using hv
        · rw [if_neg hrid] at heq
          subst heq
          exact ih r0 hr0
      · simp only [viewStudents, updateStudent, hid, hv, if_true, if_false] at hr
        exact ih r hr
    · simp only [viewStudents, updateStudent, hid, if_false] at hr
      exact ih r hr
  | delete hdb ih =>
    rename_i db sid
    intro r hr
    by_cases hid : hasId db sid = true
    · simp only [viewStudents, deleteStudent, delete_student, hid, if_true,
        List.mem_filter] at hr
      exact ih r hr.1
    · simp only [viewStudents, deleteStudent, hid, if_false] at hr
      exact ih r hr

lemma dbSeeded_reachable : Reachable dbSeeded := Reachable.add Reachable.init

/-- Witness for C1: the invariant applied to the one row of a concrete
reachable state. -/
theorem c1_store_validation_invariant_witness :
    validate_inputs "Al B" 20 3 "a@b.com" = [] :=
  c1_store_validation_invariant dbSeeded dbSeeded_reachable
    { id := 1, name := "Al B", age := 20, major := "CS", gpa := 3, email := "a@b.com" }
    (by decide)

/-- **C5.** `deleteStudent` reports `notFound` exactly when no row has the
id; when a row does, the delete succeeds and afterwards neither `view` nor
`search` returns a row with that id, and deleting the same id again reports
`notFound`. -/
theorem c5_delete_semantics (db : DB) (sid : Nat) :
    ((deleteStudent db sid).2 = some AppError.notFound ↔ hasId db sid = false) ∧
    (hasId db sid = true → (deleteStudent db sid).2 = none) ∧
    ((deleteStudent db sid).2 = none →
      (∀ r ∈ viewStudents (deleteStudent db sid).1, r.id ≠ sid) ∧
      (∀ q, ∀ r ∈ searchStudents (deleteStudent db sid).1 q, r.id ≠ sid) ∧
      (deleteStudent (deleteStudent db sid).1 sid).2 = some AppError.notFound) := by
  by_cases hid : hasId db sid = true
  · have hgone : ∀ r ∈ (delete_student db sid).rows, r.id ≠ sid := by
      intro r hr
      simp only [delete_student, List.mem_filter] at hr
      simpa using hr.2
    have hsecond : hasId (delete_student db sid) sid = false := by
      simp only [hasId, delete_student]
      rw [List.any_eq_false]
      intro r hr
      simp only [List.mem_filter] at hr
      simpa using hr.2
    refine ⟨by simp [deleteStudent, hid], fun _ => by simp [deleteStudent, hid], ?_⟩
    intro _
    refine ⟨?_, ?_, ?_⟩
    · intro r hr
      simp only [deleteStudent, hid, if_true, viewStudents] at hr
      exact hgone r hr
    · intro q r hr
      simp only [deleteStudent, hid, if_true, searchStudents, List.mem_filter] at hr
      exact hgone r hr.1
    · simp [deleteStudent, hid, hsecond]
  · rw [Bool.not_eq_true] at hid
    refine ⟨by simp [deleteStudent, hid], ?_, ?_⟩
    · intro h
      rw [hid] at h
      cases h
    · intro h
      simp [deleteStudent, hid] at h

/-- Witness for C5: delete on the empty database reports `notFound`; delete
of the one row of `dbBob` removes it from `view` and `search`, and a second
delete reports `notFound`. -/
theorem c5_delete_semantics_witness :
    (deleteStudent initDB 1).2 = some AppError.notFound ∧
    ((∀ r ∈ viewStudents (deleteStudent dbBob 1).1, r.id ≠ 1) ∧
     (∀ q, ∀ r ∈ searchStudents (deleteStudent dbBob 1).1 q, r.id ≠ 1) ∧
     (deleteStudent (deleteStudent dbBob 1).1 1).2 = some AppError.notFound) :=
  ⟨(c5_delete_semantics initDB 1).1.mpr (by decide),
   (c5_delete_semantics dbBob 1).2.2 (by decide)⟩

/-- **C6.** `updateStudent` reports `notFound` exactly when no row has the
id; on success every mutable field of that row is overwritten in one step
(the whole new database is the map that replaces exactly that row), and on
any failure the database is exactly the one before the call. -/
theorem c6_update_semantics (db : DB) (sid : Nat) (n : String) (a : Int)
    (m : String) (g : Rat) (e : String) :
    ((updateStudent db sid n a m g e).2 = some AppError.notFound ↔ hasId db sid = false) ∧
    ((updateStudent db sid n a m g e).2 = none →
      (updateStudent db sid n a m g e).1 =
        { rows := db.rows.map (fun r =>
            if r.id = sid then
              { id := r.id, name := n, age := a, major := m, gpa := g, email := e }
            else r),
          nextId := db.nextId }) ∧
    (∀ err, (updateStudent db sid n a m g e).2 = some err →
      (updateStudent db sid n a m g e).1 = db) := by
  by_cases hid : hasId db sid = true
  · by_cases hv : validate_inputs n a g e = []
    · refine ⟨by simp [updateStudent, hid, hv], ?_, ?_⟩
      · intro _
        simp [updateStudent, hid, hv, update_student]
      · intro err h
        simp [updateStudent, hid, hv] at h
    · refine ⟨?_, ?_, ?_⟩
      · simp [updateStudent, hid, hv]
      · intro h
        simp [updateStudent, hid, hv] at h
      · intro err h
        simp [updateStudent, hid, hv]
  · rw [Bool.not_eq_true] at hid
    refine ⟨by simp [updateStudent, hid], ?_, ?_⟩
    · intro h
      simp [updateStudent, hid] at h
    · intro err h
      simp [updateStudent, hid]

/-- Witness for C6: updating the one row of `dbBob` with valid fields yields
exactly the full overwrite of that row. -/
theorem c6_update_semantics_witness :
    (updateStudent dbBob 1 "Ann B" 30 "Math" 2 "a@b.org").1 =
      { rows := dbBob.rows.map (fun r =>
          if r.id = 1 then
            { id := r.id, name := "Ann B", age := 30, major := "Math", gpa := 2,
              email := "a@b.org" }
          else r),
        nextId := dbBob.nextId } :=
  (c6_update_semantics dbBob 1 "Ann B" 30 "Math" 2 "a@b.org").2.1 (by decide)

lemma split0_satisfies : SplitSpec split0 := by
  intro l
  unfold split0
  constructor
  · rw [List.take_append_drop]
  · rw [List.length_drop]
    omega

lemma fit0_satisfies : FitSpec fit0 := by
  intro train
  refine ⟨?_, ?_, ?_⟩
  · show (0 : Rat) ≤ mkRat 1 2
    decide
  · show (0 : Rat) ≤ mkRat 1 2
    decide
  · show mkRat 1 2 + mkRat 1 2 = 1
    norm_num [Rat.mkRat_eq_div]

/-- `accuracy_score` over a nonempty evaluation list lies in [0, 1]. -/
lemma accuracy_score_bounds (yT yP : List Performance) (h : yT ≠ []) :
    0 ≤ accuracy_score yT yP ∧ accuracy_score yT yP ≤ 1 := by
  have hpos : 0 < yT.length := List.length_pos.mpr h
  have hposQ : (0 : Rat) < (yT.length : Rat) := by exact_mod_cast hpos
  unfold accuracy_score
  rw [Rat.mkRat_eq_div]
  constructor
  · apply div_nonneg _ (le_of_lt hposQ)
    positivity
  · rw [div_le_one hposQ]
    have hc : (yT.zip yP).countP (fun p => p.1 == p.2) ≤ yT.length := by
      calc (yT.zip yP).countP (fun p => p.1 == p.2) ≤ (yT.zip yP).length :=
            List.countP_le_length _
        _ ≤ yT.length := by
            rw [List.length_zip]
            exact min_le_left _ _
    exact_mod_cast hc

/-- **C3.** Below 10 rows `train_and_predict` returns the insufficient-data
sentinel unchanged rows and `none` for predictions, accuracy and feature
importances — nothing is trained or predicted; with 10 or more rows it never
returns that sentinel, whatever the (external) split and fit do. -/
theorem c3_insufficient_data_guard (split : Split) (fit : Fit) (df : List Student) :
    (df.length < 10 → train_and_predict split fit df = (df, none, none, none)) ∧
    (10 ≤ df.length → ∃ table acc fi,
      train_and_predict split fit df = (df, some table, some acc, some fi)) := by
  constructor
  · intro h
    simp [train_and_predict, h]
  · intro h
    unfold train_and_predict
    rw [if_neg (by omega)]
    exact ⟨_, _, _, rfl⟩

/-- Witness for C3: nine rows give the sentinel, ten rows do not. -/
theorem c3_insufficient_data_guard_witness :
    train_and_predict split0 fit0 df9 = (df9, none, none, none) ∧
    (∃ table acc fi, train_and_predict split0 fit0 dfDegenerate =
      (dfDegenerate, some table, some acc, some fi)) :=
  ⟨(c3_insufficient_data_guard split0 fit0 df9).1 (by decide),
   (c3_insufficient_data_guard split0 fit0 dfDegenerate).2 (by decide)⟩

/-- **C4.** With 10 or more rows, classification returns an accuracy in
[0, 1] (the held-out fifth is nonempty, so the ratio is well defined even
when every row carries one single derived label) and the two feature
importances are non-negative and sum to 1 — the latter exactly the
spec-modelled contract of the external `DecisionTreeClassifier`. -/
theorem c4_classification_metrics (split : Split) (fit : Fit) (df : List Student)
    (hs : SplitSpec split) (hf : FitSpec fit) (h10 : 10 ≤ df.length) :
    ∃ table acc fi, train_and_predict split fit df = (df, some table, some acc, some fi) ∧
      0 ≤ acc ∧ acc ≤ 1 ∧ 0 ≤ fi.1 ∧ 0 ≤ fi.2 ∧ fi.1 + fi.2 = 1 := by
  have hnot : ¬ df.length < 10 := by omega
  have hlen := (hs (df.map (fun s => (s, derivePerformance s.gpa)))).2
  rw [List.length_map] at hlen
  have htest : (split (df.map (fun s => (s, derivePerformance s.gpa)))).2 ≠ [] := by
    intro hnil
    rw [hnil] at hlen
    simp at hlen
    omega
  have hyT : ((split (df.map (fun s => (s, derivePerformance s.gpa)))).2.map
      (fun p => p.2)) ≠ [] := by
    simpa using htest
  obtain ⟨hacc0, hacc1⟩ := accuracy_score_bounds
    ((split (df.map (fun s => (s, derivePerformance s.gpa)))).2.map (fun p => p.2)) _ hyT
  obtain ⟨hA, hG, hSum⟩ := hf
    (((split (df.map (fun s => (s, derivePerformance s.gpa)))).1).map
      (fun p => ((p.1.age, p.1.gpa), p.2)))
  unfold train_and_predict
  rw [if_neg hnot]
  exact ⟨_, _, _, rfl, hacc0, hacc1, hA, hG, hSum⟩

/-- Witness for C4: the degenerate ten-row population in which every row
derives the same label. -/
theorem c4_classification_metrics_witness :
    ∃ table acc fi, train_and_predict split0 fit0 dfDegenerate =
        (dfDegenerate, some table, some acc, some fi) ∧
      0 ≤ acc ∧ acc ≤ 1 ∧ 0 ≤ fi.1 ∧ 0 ≤ fi.2 ∧ fi.1 + fi.2 = 1 :=
  c4_classification_metrics split0 fit0 dfDegenerate split0_satisfies fit0_satisfies
    (by decide)

/-- **C10.** There is a population of 10 or more rows on which the held-out
accuracy is exactly 0, and on it the `ML Recommendations` branch shows the
not-enough-data message: Python's `if accuracy:` treats the accuracy `0.0`
like the sentinel `None`. -/
theorem c10_zero_accuracy_masked_as_insufficient :
    ∃ split fit db, SplitSpec split ∧ FitSpec fit ∧
      10 ≤ (viewStudents db).length ∧
      (train_and_predict split fit (viewStudents db)).2.2.1 = some 0 ∧
      mlRecommendations split fit db = MLView.insufficientData :=
  ⟨split0, fit0, dbZeroAcc, split0_satisfies, fit0_satisfies, by decide, by decide,
    by decide⟩

lemma likeMatch_percent (p s : List Char) :
    likeMatch ('%' :: p) s = s.tails.any (fun t => likeMatch p t) := by
  simp [likeMatch]

lemma likeMatch_single_percent (s : List Char) : likeMatch ['%'] s = true := by
  rw [likeMatch_percent, List.any_eq_true]
  exact ⟨[], (List.mem_tails _ _).mpr List.nil_suffix, rfl⟩

/-- A wildcard-free pattern followed by one `%` matches exactly the strings
that begin with the pattern, up to ASCII case. -/
lemma likeMatch_literal (q : List Char) (hq : ∀ c ∈ q, c ≠ '%' ∧ c ≠ '_') :
    ∀ t, likeMatch (q ++ ['%']) t =
      (q.map Char.toLower).isPrefixOf (t.map Char.toLower) := by
  induction q with
  | nil =>
    intro t
    simp [likeMatch_single_percent, List.isPrefixOf]
  | cons c q ih =>
    intro t
    obtain ⟨hc1, hc2⟩ := hq c (List.mem_cons_self c q)
    have hq' : ∀ d ∈ q, d ≠ '%' ∧ d ≠ '_' := fun d hd => hq d (List.mem_cons_of_mem c hd)
    cases t with
    | nil => simp [likeMatch, hc1, hc2, List.isPrefixOf]
    | cons d t' =>
      simp only [List.cons_append, likeMatch, hc1, hc2, if_false, List.map_cons,
        List.isPrefixOf, List.append_eq, ih hq' t']

/-- For wildcard-free queries the `LIKE`-based search is exactly the
case-insensitive substring filter on name or major. -/
lemma searchStudents_noWildcard (db : DB) (q : String) (h : noWildcard q = true) :
    searchStudents db q = db.rows.filter (fun r =>
      containsSubstrCI q.data r.name.data || containsSubstrCI q.data r.major.data) := by
  have hq : ∀ c ∈ q.data, c ≠ '%' ∧ c ≠ '_' := by
    intro c hc
    have h2 := List.all_eq_true.mp h c hc
    simpa using h2
  have hfun : (fun t => likeMatch (q.data ++ ['%']) t) =
      (fun t => (q.data.map Char.toLower).isPrefixOf (t.map Char.toLower)) :=
    funext (likeMatch_literal q.data hq)
  unfold searchStudents
  apply List.filter_congr
  intro r hr
  rw [likeMatch_percent, likeMatch_percent, hfun]
  simp only [containsSubstrCI]

/-- **C9** (amended). `search` hands the query to SQL `LIKE` between two
`%`, so `%` and `_` inside the query act as wildcards; for every query free
of those metacharacters it returns exactly the rows whose name or major
contains the query as a substring up to ASCII case (SQLite's default
case-insensitive `LIKE`), and the empty query returns every row. -/
theorem c9_search_substring_amended (db : DB) (q : String) :
    (noWildcard q = true → searchStudents db q = db.rows.filter (fun r =>
      containsSubstrCI q.data r.name.data || containsSubstrCI q.data r.major.data)) ∧
    searchStudents db "" = viewStudents db := by
  refine ⟨searchStudents_noWildcard db q, ?_⟩
  have h1 : ∀ s : List Char, likeMatch ('%' :: ("".data ++ ['%'])) s = true := by
    intro s
    show likeMatch ['%', '%'] s = true
    rw [likeMatch_percent, List.any_eq_true]
    exact ⟨s, (List.mem_tails _ _).mpr (List.suffix_refl s), likeMatch_single_percent s⟩
  unfold searchStudents viewStudents
  refine List.filter_eq_self.mpr ?_
  intro r hr
  rw [h1, h1]
  rfl

/-- **C9** (counterexample). The claim says `search` returns exactly the
rows whose name or major contains the query as a substring, for every query.
On the one-row database `dbAbc` (name "abc", major "m") the query "a_c" is a
substring of neither field — in no casing — yet `search` returns the row,
because `_` is a `LIKE` wildcard. -/
theorem c9_search_substring_counterexample :
    searchStudents dbAbc "a_c" = dbAbc.rows ∧
    containsSubstrCI "a_c".data "abc".data = false ∧
    containsSubstrCI "a_c".data "m".data = false := by
  decide

/-- Witness for C9: a concrete wildcard-free query run through the amended
equivalence (the query "bo" finds "Bob" case-insensitively). -/
theorem c9_search_substring_witness :
    searchStudents dbBob "bo" = dbBob.rows.filter (fun r =>
      containsSubstrCI "bo".data r.name.data || containsSubstrCI "bo".data r.major.data) :=
  (c9_search_substring_amended dbBob "bo").1 (by decide)
